import Mathlib

/-!
# Verification of git-llm-commit (`src/git_llm_commit/llm_commit.py`)

Shallow embedding of the program's pure logic and of the interactive
commit flow, together with theorems settling the specification claims.

Modelling conventions:
* Python strings are Lean `String`s; character-level operations
  (`strip`, `lower`, `splitlines`, `startswith`, …) are re-implemented
  over `List Char` mirroring their Python behaviour on the ASCII inputs
  this program handles (`str.splitlines` is modelled on `\n` boundaries,
  the boundary used by git diffs; `str.lower` on the ASCII range).
* Machine floats are modelled as `ℚ`; the Python `float` builtin is a
  parameter `pyfloat : String → Option ℚ` of every theorem that
  depends on it, so each theorem holds for the real parser's behaviour
  in particular; closed witnesses instantiate the parameter with the
  stand-in `floatStub`.
* Fallible calls (`subprocess.check_output`, the OpenAI call, `float`)
  return `Except`/`Option`; an uncaught Python exception is an `exit 1`.
-/

namespace LlmCommit

/-! ## Python string primitives -/

/-- Models Python `str.startswith` via `needle.data.isPrefixOf`. -/
def strStartsWith (needle s : String) : Bool := needle.data.isPrefixOf s.data

/-- Models Python `str.endswith` (used to embed `$`-anchored regexes). -/
def strEndsWith (needle s : String) : Bool := needle.data.isSuffixOf s.data

/-- Substring containment, models an unanchored `re.search` hit. -/
def strContains (needle s : String) : Bool := decide (needle.data <:+: s.data)

/-- The characters stripped by Python `str.strip()` with no argument
(ASCII whitespace; the builtin also strips non-ASCII Unicode whitespace,
which does not occur in this program's data). -/
def isPyWhitespace (c : Char) : Bool :=
  c == ' ' || c == '\t' || c == '\n' || c == '\r' || c == '\x0b' || c == '\x0c'

/-- The backquote character (code point 96). -/
def backtickChar : Char := Char.ofNat 96

def isBacktick (c : Char) : Bool := c == backtickChar

/-- Drop leading characters satisfying `p` (Python `lstrip`). -/
def pyStripLeft (p : Char → Bool) (l : List Char) : List Char := l.dropWhile p

/-- Drop trailing characters satisfying `p` (Python `rstrip`). -/
def pyStripRight (p : Char → Bool) (l : List Char) : List Char :=
  (l.reverse.dropWhile p).reverse

/-- Python `str.strip(chars)`: drop the characters from both ends. -/
def pyStrip (p : Char → Bool) (l : List Char) : List Char :=
  pyStripRight p (pyStripLeft p l)

/-- Python `str.lower()` on the ASCII range. -/
def pyLower (s : String) : String := String.mk (s.data.map Char.toLower)

/-- Worker for `splitlines`: `cur` holds the current line reversed. -/
def splitlinesGo : List Char → List Char → List (List Char)
  | [], cur => if cur.isEmpty then [] else [cur.reverse]
  | c :: rest, cur =>
    if c = '\n' then cur.reverse :: splitlinesGo rest []
    else splitlinesGo rest (c :: cur)

/-- Python `str.splitlines()` restricted to `\n` line boundaries:
`"a\nb\n"` gives `["a", "b"]`, the empty string gives `[]`. -/
def splitlines (s : String) : List String :=
  (splitlinesGo s.data []).map (fun l => String.mk l)

/-! ## `count_diff_lines` (llm_commit.py lines 70-82) -/

/-- The test applied to each diff line: single `+`/`-` lines count,
the `+++`/`---` file-metadata lines do not. -/
def isChangedLine (line : String) : Bool :=
  (strStartsWith "+" line || strStartsWith "-" line)
    && !(strStartsWith "+++" line) && !(strStartsWith "---" line)

/-- Count the changed lines in a git diff (`count_diff_lines`). -/
def count_diff_lines (diff : String) : Nat :=
  (splitlines diff).foldl
    (fun count line => if isChangedLine line then count + 1 else count) 0

/-! ## Configuration (llm_commit.py lines 45-67) -/

/-- The environment variables read by `CommitConfig` (line 306's
`dynamic_length` override mutates `LLM_COMMIT_DYNAMIC_LENGTH`). -/
structure EnvVars where
  LLM_COMMIT_MODEL : Option String := none
  LLM_COMMIT_TEMPERATURE : Option String := none
  LLM_COMMIT_DYNAMIC_LENGTH : Option String := none
  OPENROUTER_API_KEY : Option String := none

/-- Python truthiness of an `os.getenv` result (`None` and `""` are falsy). -/
def envTruthy : Option String → Bool
  | some s => !s.isEmpty
  | none => false

inductive ConfigError where
  /-- The `ValueError` raised by `float()` on a malformed literal. -/
  | malformedTemperature
deriving DecidableEq

structure CommitConfig where
  model : String
  temperature : ℚ
  one_sentence_only : Bool
  small_change_threshold : Nat := 50
  large_change_threshold : Nat := 200
  small_change_tokens : Nat := 100
  medium_change_tokens : Nat := 200
  large_change_tokens : Nat := 400
deriving DecidableEq

/-- Construction of `CommitConfig()` (dataclass default factories,
lines 49-62), parameterised by the `float` builtin `pyfloat`:
`float(os.getenv("LLM_COMMIT_TEMPERATURE", "0.7"))` raises on a
malformed value, which surfaces as `ConfigError.malformedTemperature`. -/
def mkConfig (pyfloat : String → Option ℚ) (env : EnvVars) :
    Except ConfigError CommitConfig :=
  match pyfloat (env.LLM_COMMIT_TEMPERATURE.getD "0.7") with
  | none => .error .malformedTemperature
  | some t =>
      .ok
        { model :=
            if envTruthy env.OPENROUTER_API_KEY then
              "openai/" ++ env.LLM_COMMIT_MODEL.getD "gpt-4-turbo"
            else env.LLM_COMMIT_MODEL.getD "gpt-4-turbo"
          temperature := t
          one_sentence_only :=
            pyLower (env.LLM_COMMIT_DYNAMIC_LENGTH.getD "") != "true" }

/-- A concrete stand-in for the `float` builtin, used to instantiate
the parser-parametric theorems in closed witnesses: it parses exactly
the program's default literal `"0.7"` (as the builtin does, to the
value 0.7) and rejects everything else. -/
def floatStub (s : String) : Option ℚ :=
  if s = "0.7" then some (7 / 10) else none

/-! ## RiskyFileDetector (llm_commit.py lines 94-122)

Each regex of `DEFAULT_PATTERNS` is embedded as the predicate it
denotes on a path under `re.search` (`$`-anchored patterns become
suffix tests, the unanchored `credentials.*` becomes containment). -/

/-- Pattern `r"\.env$"`. -/
def matchesDotEnv (file : String) : Bool := strEndsWith ".env" file

/-- Pattern `r"\.secret$"`. -/
def matchesDotSecret (file : String) : Bool := strEndsWith ".secret" file

/-- Pattern `r"credentials.*"`: `re.search` succeeds iff `"credentials"` occurs. -/
def matchesCredentials (file : String) : Bool := strContains "credentials" file

/-- Pattern `r".*_key$"`. -/
def matchesUnderscoreKey (file : String) : Bool := strEndsWith "_key" file

/-- Pattern `r"secrets?\.(yml|yaml|json|toml)$"`: the regex denotes the finite
suffix language below. -/
def matchesSecretsConfig (file : String) : Bool :=
  ["secret.yml", "secrets.yml", "secret.yaml", "secrets.yaml",
   "secret.json", "secrets.json", "secret.toml", "secrets.toml"].any
    (fun suf => strEndsWith suf file)

def DEFAULT_PATTERNS : List (String → Bool) :=
  [matchesDotEnv, matchesDotSecret, matchesCredentials,
   matchesUnderscoreKey, matchesSecretsConfig]

/-- Embeds `RiskyFileDetector.detect_risky_files`: the inner
`for pattern ... if re.search ... append; break` appends the file once
iff some pattern matches, i.e. `DEFAULT_PATTERNS.any`. -/
def detect_risky_files (files : List String) : List String :=
  files.foldl
    (fun risky file =>
      if DEFAULT_PATTERNS.any (fun p => p file) then risky ++ [file] else risky)
    []

/-! ## GitCommandLine (llm_commit.py lines 125-158)

Each operation takes the outcome of its underlying subprocess
invocation as an explicit argument. -/

/-- Outcome of a `subprocess.check_output` call: captured stdout, or
the `CalledProcessError` raised on a non-zero exit status. -/
inductive SubprocessOutcome where
  | output (stdout : String)
  | calledProcessError (returncode : Nat)
deriving DecidableEq

/-- Outcome of the `subprocess.Popen` call in `get_editor`: captured
stdout, or a raised `subprocess.SubprocessError`. -/
inductive PopenOutcome where
  | output (stdout : String)
  | subprocessError (msg : String)
deriving DecidableEq

/-- Embeds `GitCommandLine.get_diff` (lines 128-134). -/
def get_diff (r : SubprocessOutcome) : Except String String :=
  match r with
  | .output out => .ok out
  | .calledProcessError _ => .error "Unable to obtain staged diff"

/-- Embeds `GitCommandLine.get_editor` (lines 136-145); the happy path strips
whitespace from the captured stdout. -/
def get_editor (r : PopenOutcome) : Except String String :=
  match r with
  | .output out => .ok (String.mk (pyStrip isPyWhitespace out.data))
  | .subprocessError e => .error ("Error getting git editor: " ++ e)

/-- Embeds `GitCommandLine.commit` (lines 147-148): `subprocess.run` WITHOUT
`check=True` returns a `CompletedProcess` whatever the exit status, so
the method returns normally even when the underlying `git commit`
fails; no exception is raised and none is converted to `RuntimeError`. -/
def commit (message : String) (returncode : Nat) : Except String Unit :=
  .ok ()

/-- Embeds `GitCommandLine.get_staged_files` (lines 150-158); the happy path
keeps the non-empty lines of stdout. -/
def get_staged_files (r : SubprocessOutcome) : Except String (List String) :=
  match r with
  | .output out => .ok ((splitlines out).filter (fun f => !f.isEmpty))
  | .calledProcessError _ => .error "Unable to get staged files"

/-! ## Size classification (llm_commit.py lines 168-176 and 199-205)

`_get_user_message` and `generate` branch identically on the
`diff_size` value `count_diff_lines diff`; the shared branch is
factored as `detailLevelOf` / `maxTokensOf` over that count. -/

def detailLevelOf (config : CommitConfig) (diff_size : Nat) : String :=
  if diff_size ≤ config.small_change_threshold then "concise"
  else if diff_size ≤ config.large_change_threshold then "moderate"
  else "detailed"

def maxTokensOf (config : CommitConfig) (diff_size : Nat) : Nat :=
  if diff_size ≤ config.small_change_threshold then config.small_change_tokens
  else if diff_size ≤ config.large_change_threshold then config.medium_change_tokens
  else config.large_change_tokens

/-- The `detail_level` selected in `_get_user_message` (lines 170-176). -/
def detail_level (config : CommitConfig) (diff : String) : String :=
  detailLevelOf config (count_diff_lines diff)

/-- The `max_tokens` selected in `generate` (lines 199-205). -/
def generate_max_tokens (config : CommitConfig) (diff : String) : Nat :=
  maxTokensOf config (count_diff_lines diff)

/-- Rank of a size tier, for stating monotonicity. -/
def tierRank (tier : String) : Nat :=
  if tier = "concise" then 0 else if tier = "moderate" then 1 else 2

/-! ## Response post-processing (llm_commit.py lines 221-224) -/

/-- Embeds `content.strip().strip("\x60")`: trim whitespace, then strip
wrapping backquote characters. -/
def postprocess (content : String) : String :=
  String.mk (pyStrip isBacktick (pyStrip isPyWhitespace content.data))

/-- Lines 221-224 of `generate`: an empty (falsy) response raises, a
non-empty one is post-processed and returned. -/
def postprocess_response (content : String) : Except String String :=
  if content.isEmpty then .error "Received empty response from OpenAI API"
  else .ok (postprocess content)

/-- Wrap a message in a pair of backquote characters. -/
def wrapBackticks (m : String) : String :=
  String.mk (backtickChar :: m.data ++ [backtickChar])

/-! ## CommitMessageEditor (llm_commit.py lines 273-286)

The file system is an association list from paths to contents; the
editor the user runs is an arbitrary state transformer that may also
raise (`subprocess.call` itself raises e.g. `FileNotFoundError` when
the editor program does not exist; it does NOT raise on a non-zero
editor exit status, which is simply a successful call here). -/

abbrev FS := List (String × String)

def fsRead (fs : FS) (path : String) : Option String :=
  (fs.find? (fun e => e.1 == path)).map (fun e => e.2)

def fsWrite (fs : FS) (path contents : String) : FS :=
  (path, contents) :: fs.filter (fun e => e.1 != path)

def fsUnlink (fs : FS) (path : String) : FS :=
  fs.filter (fun e => e.1 != path)

def fsExists (fs : FS) (path : String) : Bool := (fsRead fs path).isSome

/-- Embeds `CommitMessageEditor.edit_message` (lines 276-286): write the draft
to a fresh temporary file, run the editor, read the file back; the
`try/finally` runs `os.unlink` on every path, so both branches of the
editor outcome unlink before returning/re-raising.  The `none` read
branch models `open` raising when the file vanished. -/
def edit_message (message : String) (editorRun : FS → Except String FS)
    (tmpPath : String) (fs : FS) : Except String String × FS :=
  match editorRun (fsWrite fs tmpPath message) with
  | .error e => (.error e, fsUnlink (fsWrite fs tmpPath message) tmpPath)
  | .ok fs2 =>
      match fsRead fs2 tmpPath with
      | none => (.error "could not reopen temporary file", fsUnlink fs2 tmpPath)
      | some contents => (.ok contents, fsUnlink fs2 tmpPath)

/-! ## The interactive loop and `llm_commit` (llm_commit.py lines 289-360) -/

/-- How one response at the `(y/n/e[dit])` prompt is classified:
`prompt_user` lower-cases the raw input (line 295) and the loop
compares it against `"y"`, `"n"`, `"e"` (lines 342-356). -/
inductive LoopAction where
  | accept
  | reject
  | edit
  | retry
deriving DecidableEq

def stepResponse (raw : String) : LoopAction :=
  let response := pyLower raw
  if response = "y" then .accept
  else if response = "n" then .reject
  else if response = "e" then .edit
  else .retry

inductive LoopResult where
  /-- Runs `git.commit(commit_message)` then break (lines 342-344). -/
  | commitMsg (msg : String)
  /-- Runs `sys.exit(0)` after "Commit aborted." (lines 345-347). -/
  | abort
  /-- The scripted inputs ran out: `input()` would raise `EOFError`. -/
  | outOfInput
deriving DecidableEq

/-- The `while True` loop of lines 339-356, driven by the scripted user
responses; each `e` response consumes the next edited-file contents
from `edits` (the value `editor.edit_message` returns, line 350). -/
def runLoop : String → List String → List String → LoopResult
  | _, [], _ => .outOfInput
  | draft, r :: rs, edits =>
    match stepResponse r with
    | .accept => .commitMsg draft
    | .reject => .abort
    | .edit =>
        match edits with
        | [] => .outOfInput
        | c :: cs => runLoop c rs cs
    | .retry => runLoop draft rs edits

/-- Embeds `prompt_risky_files` (lines 298-303) which returns
`input().lower().startswith("y")`. -/
def answersYes (raw : String) : Bool := strStartsWith "y" (pyLower raw)

/-- The externally supplied behaviour of one run: the staged files and
diff the git collaborator returns, the generator outcome, and the
scripted user inputs. -/
structure RunInput where
  stagedFiles : List String
  diff : String
  genResult : Except String String
  riskyAnswer : String
  responses : List String
  editorResults : List String

/-- Observable outcome of a run: the process exit code (0 for a normal
return of `llm_commit`, 1 for `sys.exit(1)` or an uncaught exception),
the message passed to `git commit` if any, and whether the model
collaborator was invoked. -/
structure RunResult where
  exitCode : Nat
  committed : Option String
  modelCalled : Bool
deriving DecidableEq

/-- Line 306's `dynamic_length` flag overwrites
`LLM_COMMIT_DYNAMIC_LENGTH` before `CommitConfig()` is constructed. -/
def applyDynamicLength (dynamic_length : Bool) (env : EnvVars) : EnvVars :=
  if dynamic_length then { env with LLM_COMMIT_DYNAMIC_LENGTH := some "true" }
  else env

/-- Embeds `llm_commit` (lines 306-360).  `CommitConfig()` runs before the
OpenAI client is created and before the `try` block, and a
`ValueError` from it is caught nowhere (`except` catches only
`RuntimeError`), so a malformed temperature terminates the process
with a traceback (exit 1) with no model call.  Inside the `try`:
risky-file gate (`sys.exit(1)` on decline), empty-diff no-op
(`sys.exit(0)`), generation (a `RuntimeError` reaches the handler and
exits 1), then the response loop. -/
def llm_commit (pyfloat : String → Option ℚ) (env : EnvVars)
    (dynamic_length : Bool) (inp : RunInput) : RunResult :=
  match mkConfig pyfloat (applyDynamicLength dynamic_length env) with
  | .error _ => ⟨1, none, false⟩
  | .ok _ =>
      let risky := detect_risky_files inp.stagedFiles
      if !risky.isEmpty && !(answersYes inp.riskyAnswer) then ⟨1, none, false⟩
      else if (pyStrip isPyWhitespace inp.diff.data).isEmpty then ⟨0, none, false⟩
      else
        match inp.genResult with
        | .error _ => ⟨1, none, true⟩
        | .ok draft =>
            match runLoop draft inp.responses inp.editorResults with
            | .commitMsg m => ⟨0, some m, true⟩
            | .abort => ⟨0, none, true⟩
            | .outOfInput => ⟨1, none, true⟩

/-! ## Helper lemmas -/

/-- A default configuration (temperature `0.7`, one-sentence mode),
the values `CommitConfig()` resolves to in an empty environment. -/
def cfg0 : CommitConfig :=
  { model := "gpt-4-turbo", temperature := 7 / 10, one_sentence_only := true }

theorem foldl_count_eq_countP (p : String → Bool) (l : List String) (n : Nat) :
    l.foldl (fun count line => if p line then count + 1 else count) n =
      n + l.countP p := by
  induction l generalizing n with
  | nil => simp
  | cons a t ih =>
      by_cases h : p a <;> simp [List.countP_cons, h, ih] <;> omega

theorem detect_foldl_eq_filter (files acc : List String) :
    files.foldl
      (fun risky file =>
        if DEFAULT_PATTERNS.any (fun p => p file) then risky ++ [file] else risky)
      acc =
      acc ++ files.filter (fun file => DEFAULT_PATTERNS.any (fun p => p file)) := by
  induction files generalizing acc with
  | nil => simp
  | cons a t ih =>
      by_cases h : DEFAULT_PATTERNS.any (fun p => p a) <;>
        simp only [List.foldl_cons, List.filter_cons, h, if_true,
          Bool.false_eq_true, if_false, ih] <;>
        simp

theorem detect_risky_files_eq_filter (files : List String) :
    detect_risky_files files =
      files.filter (fun file => DEFAULT_PATTERNS.any (fun p => p file)) := by
  simpa [detect_risky_files] using detect_foldl_eq_filter files []

theorem count_filter_of_matching {p : String → Bool} {f : String}
    (l : List String) (h : p f = true) :
    List.count f (l.filter p) = List.count f l := by
  induction l with
  | nil => rfl
  | cons a t ih =>
      by_cases ha : p a
      · simp only [List.filter_cons, ha, if_true, List.count_cons, ih]
      · have hne : (a == f) = false := by
          by_cases hb : a = f
          · subst hb
            exact absurd h ha
          · simp [hb]
        simp only [List.filter_cons, ha, Bool.false_eq_true, if_false,
          List.count_cons, ih, hne]
        simp

theorem tierRank_detailLevelOf (config : CommitConfig) (n : Nat) :
    tierRank (detailLevelOf config n) =
      if n ≤ config.small_change_threshold then 0
      else if n ≤ config.large_change_threshold then 1 else 2 := by
  simp only [detailLevelOf, tierRank]
  split_ifs <;> simp_all

/-! ## Claim theorems -/

/-- C4: for every diff text `D`, `count_diff_lines` counts exactly the
lines that start with `+` or `-` and do not start with `+++`/`---`;
and a diff consisting of only the two file-header lines counts as 0. -/
theorem count_diff_lines_spec :
    (∀ D : String, count_diff_lines D =
      (splitlines D).countP (fun line =>
        (strStartsWith "+" line || strStartsWith "-" line)
          && !(strStartsWith "+++" line) && !(strStartsWith "---" line))) ∧
    count_diff_lines "--- a/file.txt\n+++ b/file.txt" = 0 := by
  constructor
  · intro D
    have e : (fun line =>
        (strStartsWith "+" line || strStartsWith "-" line)
          && !(strStartsWith "+++" line) && !(strStartsWith "---" line)) =
        isChangedLine := rfl
    rw [e]
    simpa [count_diff_lines] using
      foldl_count_eq_countP isChangedLine (splitlines D) 0
  · decide

/-- C3: size classification is threshold-inclusive at the default
thresholds (50 → concise, 51 → moderate, 200 → moderate,
201 → detailed), monotonic in the changed-line count, and the
max-token budget selected in `generate` follows the same tier
boundaries as the detail level of `_get_user_message`. -/
theorem size_classification_spec :
    detailLevelOf cfg0 50 = "concise" ∧
    detailLevelOf cfg0 51 = "moderate" ∧
    detailLevelOf cfg0 200 = "moderate" ∧
    detailLevelOf cfg0 201 = "detailed" ∧
    (∀ n : Nat, maxTokensOf cfg0 n =
      (if detailLevelOf cfg0 n = "concise" then cfg0.small_change_tokens
       else if detailLevelOf cfg0 n = "moderate" then cfg0.medium_change_tokens
       else cfg0.large_change_tokens)) ∧
    (∀ n m : Nat, n ≤ m →
      tierRank (detailLevelOf cfg0 n) ≤ tierRank (detailLevelOf cfg0 m)) ∧
    (∀ D : String, detail_level cfg0 D = detailLevelOf cfg0 (count_diff_lines D) ∧
      generate_max_tokens cfg0 D = maxTokensOf cfg0 (count_diff_lines D)) := by
  refine ⟨by decide, by decide, by decide, by decide, ?_, ?_, ?_⟩
  · intro n
    simp only [maxTokensOf, detailLevelOf]
    split_ifs <;> simp_all
  · intro n m hnm
    rw [tierRank_detailLevelOf, tierRank_detailLevelOf]
    split_ifs <;> omega
  · intro D
    exact ⟨rfl, rfl⟩

/-- Witness for C3: the monotonicity part applied at 50 ≤ 201. -/
theorem size_classification_spec_witness :
    tierRank (detailLevelOf cfg0 50) ≤ tierRank (detailLevelOf cfg0 201) :=
  size_classification_spec.2.2.2.2.2.1 50 201 (by decide)

/-- C5: `detect_risky_files` returns exactly `[".env"]` on
`[".env", "notes.txt"]`, returns `[]` on `[]`, and a file occurring
once in the input that matches two or more of the default patterns
occurs exactly once in the output. -/
theorem detect_risky_files_spec :
    detect_risky_files [".env", "notes.txt"] = [".env"] ∧
    detect_risky_files [] = [] ∧
    (∀ (files : List String) (f : String),
      List.count f files = 1 →
      2 ≤ DEFAULT_PATTERNS.countP (fun p => p f) →
      List.count f (detect_risky_files files) = 1) := by
  refine ⟨by decide, by decide, ?_⟩
  intro files f hcount hpatterns
  have hmatch : DEFAULT_PATTERNS.any (fun p => p f) = true := by
    have hpos : 0 < DEFAULT_PATTERNS.countP (fun p => p f) :=
      lt_of_lt_of_le (by norm_num) hpatterns
    rcases List.countP_pos_iff.mp hpos with ⟨p, hp, hpf⟩
    exact List.any_eq_true.mpr ⟨p, hp, hpf⟩
  rw [detect_risky_files_eq_filter]
  exact (count_filter_of_matching files hmatch).trans hcount

/-- Witness for C5: `"credentials_key"` matches both the
`credentials.*` and the `.*_key$` patterns and is listed once. -/
theorem detect_risky_files_spec_witness :
    List.count "credentials_key" (detect_risky_files ["credentials_key"]) = 1 :=
  detect_risky_files_spec.2.2 ["credentials_key"] "credentials_key"
    (by decide) (by decide)

theorem pyStripLeft_suffix (p : Char → Bool) (l : List Char) :
    pyStripLeft p l <:+ l :=
  List.dropWhile_suffix p

theorem pyStripRight_prefixOf (p : Char → Bool) (l : List Char) :
    pyStripRight p l <+: l := by
  have h : (pyStripRight p l).reverse <:+ l.reverse := by
    simpa [pyStripRight] using @List.dropWhile_suffix _ l.reverse p
  exact List.reverse_suffix.mp h

theorem pyStrip_infixOf (p : Char → Bool) (l : List Char) :
    pyStrip p l <:+: l :=
  ((pyStripRight_prefixOf p (pyStripLeft p l)).isInfix).trans
    ((pyStripLeft_suffix p l).isInfix)

/-- C6: for every non-empty model response the returned message is the
response with surrounding whitespace trimmed and wrapping backquote
characters stripped; the result is always a contiguous block of the
response (internal whitespace and newlines preserved); and a message
with no backquote character at its edges, wrapped in backquotes,
round-trips to itself. -/
theorem postprocess_spec :
    (∀ s : String, s ≠ "" → postprocess_response s = .ok (postprocess s)) ∧
    (∀ s : String, (postprocess s).data <:+: s.data) ∧
    (∀ m : String, m.data.head? ≠ some backtickChar →
      m.data.getLast? ≠ some backtickChar →
      postprocess (wrapBackticks m) = m) := by
  refine ⟨?_, ?_, ?_⟩
  · intro s hs
    have h : s.isEmpty = false := by
      rw [Bool.eq_false_iff]
      intro he
      exact hs ((String.isEmpty_iff s).mp he)
    simp [postprocess_response, h]
  · intro s
    exact (pyStrip_infixOf isBacktick (pyStrip isPyWhitespace s.data)).trans
      (pyStrip_infixOf isPyWhitespace s.data)
  · intro m h1 h2
    have hbtws : isPyWhitespace backtickChar = false := by decide
    have hbtbt : isBacktick backtickChar = true := by decide
    -- the whitespace strip is the identity on a backquote-delimited list
    have hw : pyStrip isPyWhitespace (backtickChar :: m.data ++ [backtickChar]) =
        backtickChar :: m.data ++ [backtickChar] := by
      simp [pyStrip, pyStripLeft, pyStripRight, List.dropWhile_cons, hbtws,
        List.reverse_append]
    have hmain : pyStrip isBacktick (backtickChar :: m.data ++ [backtickChar]) =
        m.data := by
      cases hd : m.data with
      | nil => decide
      | cons c cs =>
          have hc : isBacktick c = false := by
            have : c ≠ backtickChar := fun hec => h1 (by rw [hd, hec]; rfl)
            simp [isBacktick, this]
          rcases List.eq_nil_or_concat (c :: cs) with hnil | ⟨L, b, hLb⟩
          · exact absurd hnil (by simp)
          · have hb : isBacktick b = false := by
              have : b ≠ backtickChar := by
                intro hec
                apply h2
                rw [hd, hLb, hec]
                simp [List.concat_eq_append, List.getLast?_concat]
              simp [isBacktick, this]
            rw [List.concat_eq_append] at hLb
            have hleft : pyStripLeft isBacktick
                (backtickChar :: (c :: cs) ++ [backtickChar]) =
                (c :: cs) ++ [backtickChar] := by
              simp [pyStripLeft, List.dropWhile_cons, hbtbt, hc]
            have hright : pyStripRight isBacktick ((c :: cs) ++ [backtickChar]) =
                c :: cs := by
              rw [hLb]
              simp [pyStripRight, List.reverse_append, List.dropWhile_cons,
                hbtbt, hb]
            calc pyStrip isBacktick (backtickChar :: (c :: cs) ++ [backtickChar])
                = pyStripRight isBacktick ((c :: cs) ++ [backtickChar]) := by
                  rw [pyStrip, hleft]
              _ = c :: cs := hright
    show String.mk (pyStrip isBacktick
      (pyStrip isPyWhitespace (backtickChar :: m.data ++ [backtickChar]))) = m
    rw [hw, hmain]

/-- Witness for C6: a concrete backquote-wrapped message round-trips. -/
theorem postprocess_spec_witness :
    postprocess_response "ok" = .ok (postprocess "ok") ∧
    postprocess (wrapBackticks "fix: handle empty diff\n\nDetails here.") =
      "fix: handle empty diff\n\nDetails here." :=
  ⟨postprocess_spec.1 "ok" (by decide),
   postprocess_spec.2.2 "fix: handle empty diff\n\nDetails here."
     (by decide) (by decide)⟩

/-- C7: the `(y/n/e[dit])` prompt recognizes the three commands
case-insensitively (the raw input is lower-cased before comparison),
and for every other input the loop re-prompts with the draft message
unchanged — the loop state is exactly the state before the input. -/
theorem prompt_loop_spec :
    stepResponse "y" = .accept ∧ stepResponse "Y" = .accept ∧
    stepResponse "n" = .reject ∧ stepResponse "N" = .reject ∧
    stepResponse "e" = .edit ∧ stepResponse "E" = .edit ∧
    (∀ r : String, pyLower r ≠ "y" → pyLower r ≠ "n" → pyLower r ≠ "e" →
      stepResponse r = .retry) ∧
    (∀ (draft r : String) (rs edits : List String), stepResponse r = .retry →
      runLoop draft (r :: rs) edits = runLoop draft rs edits) := by
  refine ⟨by decide, by decide, by decide, by decide, by decide, by decide,
    ?_, ?_⟩
  · intro r h1 h2 h3
    simp [stepResponse, h1, h2, h3]
  · intro draft r rs edits h
    simp only [runLoop, h]

/-- Witness for C7: an unrecognized response (`"x"`) self-loops. -/
theorem prompt_loop_spec_witness :
    runLoop "feat: add x" ["x", "n"] [] = runLoop "feat: add x" ["n"] [] :=
  prompt_loop_spec.2.2.2.2.2.2.2 "feat: add x" "x" ["n"] [] (by decide)

/-- C2 (code bug): `get_diff`, `get_staged_files` and `get_editor`
convert a failure of their underlying invocation into a runtime
error, but `commit` calls `subprocess.run` without `check=True` and so
returns normally — raising nothing — even when the underlying
`git commit` invocation fails (here: exit status 1). -/
theorem commit_failure_not_propagated :
    (∀ c : Nat, get_diff (.calledProcessError c) =
      .error "Unable to obtain staged diff") ∧
    (∀ c : Nat, get_staged_files (.calledProcessError c) =
      .error "Unable to get staged files") ∧
    (∀ e : String, get_editor (.subprocessError e) =
      .error ("Error getting git editor: " ++ e)) ∧
    commit "feat: add parser" 1 = .ok () :=
  ⟨fun _ => rfl, fun _ => rfl, fun _ => rfl, rfl⟩

/-- A run in which the only staged file is innocuous, generation
succeeds, and the user answers `n` at the draft prompt. -/
def rejectRun : RunInput :=
  { stagedFiles := ["src/app.py"], diff := "+x\n", genResult := .ok "feat: x",
    riskyAnswer := "", responses := ["n"], editorResults := [] }

/-- C1 counterexample: in a run where the user answers `n` at the
draft prompt, the process exits with code 0, not 1. -/
theorem reject_exit_code_counterexample :
    (llm_commit floatStub {} false rejectRun).exitCode = 0 ∧
    (llm_commit floatStub {} false rejectRun).exitCode ≠ 1 := by
  constructor <;> decide

/-- C1 (amended): answering `n` at the draft prompt aborts the loop
from any loop state, and every run that reaches the prompt loop and
aborts there terminates with exit code 0 and commits nothing. -/
theorem reject_draft_exits_zero :
    (∀ (draft : String) (rs edits : List String),
      runLoop draft ("n" :: rs) edits = .abort) ∧
    (∀ (pyfloat : String → Option ℚ) (env : EnvVars) (dl : Bool)
      (inp : RunInput) (draft : String),
      (∃ cfg, mkConfig pyfloat (applyDynamicLength dl env) = .ok cfg) →
      (!(detect_risky_files inp.stagedFiles).isEmpty &&
        !(answersYes inp.riskyAnswer)) = false →
      (pyStrip isPyWhitespace inp.diff.data).isEmpty = false →
      inp.genResult = .ok draft →
      runLoop draft inp.responses inp.editorResults = .abort →
      llm_commit pyfloat env dl inp = ⟨0, none, true⟩) := by
  constructor
  · intro draft rs edits
    have h : stepResponse "n" = .reject := by decide
    simp only [runLoop, h]
  · intro pf env dl inp draft hcfg hrisky hdiff hgen hloop
    obtain ⟨cfg, hcfg⟩ := hcfg
    simp only [llm_commit, hcfg, hrisky, hdiff, hgen, hloop,
      Bool.false_eq_true, if_false]

/-- Witness for C1's amended claim: the `rejectRun` scenario exits 0. -/
theorem reject_draft_exits_zero_witness :
    llm_commit floatStub {} false rejectRun = ⟨0, none, true⟩ :=
  reject_draft_exits_zero.2 floatStub {} false rejectRun "feat: x"
    ⟨_, rfl⟩ (by decide) (by decide) rfl (by decide)

/-- C8: if the temperature environment variable is set to a string the
float parser rejects, configuration construction fails with the
malformed-temperature error and the run exits 1 with no model call —
for every parser behaviour, hence in particular for the `float`
builtin, and with no silent fallback to the default temperature. -/
theorem malformed_temperature_spec :
    ∀ (pyfloat : String → Option ℚ) (env : EnvVars) (s : String),
      env.LLM_COMMIT_TEMPERATURE = some s → pyfloat s = none →
      (∀ dl : Bool, mkConfig pyfloat (applyDynamicLength dl env) =
        .error .malformedTemperature) ∧
      (∀ (dl : Bool) (inp : RunInput),
        llm_commit pyfloat env dl inp = ⟨1, none, false⟩) := by
  intro pf env s hs hparse
  have htemp : ∀ dl : Bool,
      (applyDynamicLength dl env).LLM_COMMIT_TEMPERATURE = some s := by
    intro dl
    cases dl <;> simp [applyDynamicLength, hs]
  have hcfg : ∀ dl : Bool, mkConfig pf (applyDynamicLength dl env) =
      .error .malformedTemperature := by
    intro dl
    simp only [mkConfig, htemp dl, Option.getD_some, hparse]
  refine ⟨hcfg, fun dl inp => ?_⟩
  simp only [llm_commit, hcfg dl]

/-- Witness for C8: a parser rejecting everything and the literal
environment value `"not a float"`. -/
theorem malformed_temperature_spec_witness :
    llm_commit (fun _ => none)
      { LLM_COMMIT_TEMPERATURE := some "not a float" } false
      { stagedFiles := ["a.py"], diff := "+x\n", genResult := .ok "feat: x",
        riskyAnswer := "", responses := ["y"], editorResults := [] } =
      ⟨1, none, false⟩ :=
  (malformed_temperature_spec (fun _ => none)
    { LLM_COMMIT_TEMPERATURE := some "not a float" } "not a float"
    rfl rfl).2 false
    { stagedFiles := ["a.py"], diff := "+x\n", genResult := .ok "feat: x",
      riskyAnswer := "", responses := ["y"], editorResults := [] }

theorem fsRead_fsUnlink (fs : FS) (path : String) :
    fsRead (fsUnlink fs path) path = none := by
  induction fs with
  | nil => rfl
  | cons e t ih =>
      simp only [fsUnlink] at ih ⊢
      by_cases h : e.1 = path
      · simpa [List.filter_cons, h] using ih
      · simp only [List.filter_cons, bne_iff_ne, ne_eq, h, not_false_eq_true,
          if_true]
        simpa [fsRead, List.find?_cons, beq_iff_eq, h] using ih

theorem fsExists_fsUnlink (fs : FS) (path : String) :
    fsExists (fsUnlink fs path) path = false := by
  simp [fsExists, fsRead_fsUnlink]

/-- C9: after `edit_message` the temporary file no longer exists,
whether the editor invocation succeeded or raised; on success the
returned message is exactly the file's final contents, untrimmed; and
in the prompt loop, edit followed by accept commits exactly the edited
contents. -/
theorem edit_message_spec :
    (∀ (message : String) (editorRun : FS → Except String FS)
      (tmpPath : String) (fs : FS),
      fsExists (edit_message message editorRun tmpPath fs).2 tmpPath = false) ∧
    (∀ (message : String) (editorRun : FS → Except String FS)
      (tmpPath : String) (fs fs2 : FS) (contents : String),
      editorRun (fsWrite fs tmpPath message) = .ok fs2 →
      fsRead fs2 tmpPath = some contents →
      (edit_message message editorRun tmpPath fs).1 = .ok contents) ∧
    (∀ (draft contents : String) (rs cs : List String),
      runLoop draft ("e" :: "y" :: rs) (contents :: cs) =
        .commitMsg contents) := by
  refine ⟨?_, ?_, ?_⟩
  · intro msg ed tmp fs
    unfold edit_message
    cases h : ed (fsWrite fs tmp msg) with
    | error e => simp [fsExists_fsUnlink]
    | ok fs2 => cases h2 : fsRead fs2 tmp <;> simp [h2, fsExists_fsUnlink]
  · intro msg ed tmp fs fs2 c hed hread
    unfold edit_message
    rw [hed]
    simp [hread]
  · intro draft c rs cs
    have he : stepResponse "e" = .edit := by decide
    have hy : stepResponse "y" = .accept := by decide
    simp only [runLoop, he, hy]

/-- Witness for C9: a concrete editor rewriting the file, then accept. -/
theorem edit_message_spec_witness :
    (edit_message "draft" (fun fs => Except.ok (fsWrite fs "tmp.txt" "edited\n"))
      "tmp.txt" []).1 = .ok "edited\n" ∧
    fsExists (edit_message "draft"
      (fun fs => Except.ok (fsWrite fs "tmp.txt" "edited\n"))
      "tmp.txt" []).2 "tmp.txt" = false ∧
    runLoop "draft" ["e", "y"] ["edited\n"] = .commitMsg "edited\n" :=
  ⟨edit_message_spec.2.1 "draft"
      (fun fs => Except.ok (fsWrite fs "tmp.txt" "edited\n"))
      "tmp.txt" [] (fsWrite (fsWrite [] "tmp.txt" "draft") "tmp.txt" "edited\n")
      "edited\n" rfl rfl,
   edit_message_spec.1 "draft"
      (fun fs => Except.ok (fsWrite fs "tmp.txt" "edited\n")) "tmp.txt" [],
   edit_message_spec.2.2 "draft" "edited\n" [] []⟩

/-- C10: when `LLM_COMMIT_TEMPERATURE` is unset, the configuration
parses the hard-coded literal `"0.7"`, so for every float parser that
(like the builtin) sends `"0.7"` to 0.7, the resolved temperature is
exactly 0.7 — a default the spec never states. -/
theorem default_temperature_spec :
    ∀ (pyfloat : String → Option ℚ) (env : EnvVars),
      env.LLM_COMMIT_TEMPERATURE = none →
      pyfloat "0.7" = some (7 / 10 : ℚ) →
      (mkConfig pyfloat env).map CommitConfig.temperature =
        .ok (7 / 10 : ℚ) := by
  intro pf env h hp
  simp only [mkConfig, h, Option.getD_none, hp]
  rfl

/-- Witness for C10: the empty environment resolves to 0.7. -/
theorem default_temperature_spec_witness :
    (mkConfig floatStub {}).map CommitConfig.temperature = .ok (7 / 10 : ℚ) :=
  default_temperature_spec floatStub {} rfl rfl

end LlmCommit
